import Mathlib

/-!
Shallow embedding of the RMP health-monitoring engine
(namespace RadarRMP in the C++ sources) and verification of its
specification claims.

Conventions of the embedding:
* C++ `double` values are modelled as rationals (`ℚ`); where the code can
  hold non-finite doubles (telemetry payloads in the data pipeline) the
  type `Dbl` adds explicit NaN / ±infinity constructors.
* `QDateTime` / millisecond timestamps are modelled as `Int`
  (`QDateTime::msecsTo(b) = b - a`).
* `QMap` keyed containers are modelled as association lists; `QList` /
  `std::deque` as `List`.
* `QString::toDouble` (a Qt library routine, not repository code) is
  abstracted as a parameter `parse : String → Option ℚ` returning `some`
  exactly on the strings it accepts; every result proved below holds for
  every such parser.
-/

namespace RMP

/-- Health states (include/core/HealthStatus.h, `enum class HealthState`). -/
inductive HealthState
  | OK
  | DEGRADED
  | FAIL
  | UNKNOWN
deriving DecidableEq, Repr

/-- Fault severities (include/core/HealthStatus.h, `enum class FaultSeverity`). -/
inductive FaultSeverity
  | INFO
  | WARNING
  | CRITICAL
  | FATAL
deriving DecidableEq, Repr

/-- Fault record (include/core/HealthStatus.h, `struct FaultCode`).
`metadata` is omitted: none of the modelled operations reads it. -/
structure FaultCode where
  code : String
  description : String
  severity : FaultSeverity
  timestamp : Int
  subsystemId : String
  active : Bool
deriving DecidableEq, Repr

/-- `QDateTime::msecsTo`: milliseconds from `a` to `b`. -/
def msecsTo (a b : Int) : Int := b - a

/-- `FaultManager` private state (include/core/FaultManager.h). -/
structure FaultManager where
  activeFaults : List (String × FaultCode)
  faultHistory : List FaultCode
  subsystemLastFault : List (String × Int)
  subsystemFaultCounts : List (String × Nat)
deriving Repr

namespace FaultManager

/-- `MAX_HISTORY_SIZE` (include/core/FaultManager.h). -/
def MAX_HISTORY_SIZE : Nat := 10000

/-- `FaultManager::makeFaultKey`. -/
def makeFaultKey (subsystemId faultCode : String) : String :=
  subsystemId ++ ":" ++ faultCode

/-- Fresh manager (default-constructed `FaultManager`). -/
def init : FaultManager := ⟨[], [], [], []⟩

/-- Association-list update mirroring `QMap::operator[]` assignment:
replaces the value at the key if present, otherwise appends. -/
def alSet {α : Type} (l : List (String × α)) (k : String) (v : α) :
    List (String × α) :=
  match l with
  | [] => [(k, v)]
  | (k', v') :: t => if k' = k then (k, v) :: t else (k', v') :: alSet t k v

/-- The `while (m_faultHistory.size() > MAX_HISTORY_SIZE) removeFirst()`
trim loop: drop oldest entries until at most `cap` remain. -/
def trimFront {α : Type} (cap : Nat) (l : List α) : List α :=
  l.drop (l.length - cap)

/-- `FaultManager::registerFault` (src/core/FaultManager.cpp).
Signal emissions are not part of the modelled state. -/
def registerFault (m : FaultManager) (fault : FaultCode) : FaultManager :=
  let key := makeFaultKey fault.subsystemId fault.code
  if (m.activeFaults.lookup key).isSome then m
  else
    { m with
      activeFaults := alSet m.activeFaults key fault
      faultHistory := trimFront MAX_HISTORY_SIZE (m.faultHistory ++ [fault])
      subsystemLastFault := alSet m.subsystemLastFault fault.subsystemId fault.timestamp
      subsystemFaultCounts :=
        alSet m.subsystemFaultCounts fault.subsystemId
          ((m.subsystemFaultCounts.lookup fault.subsystemId).getD 0 + 1) }

/-- `FaultManager::clearFault` (src/core/FaultManager.cpp): removes the
keyed entry from the active map — and nothing else. -/
def clearFault (m : FaultManager) (faultCode subsystemId : String) : FaultManager :=
  let key := makeFaultKey subsystemId faultCode
  { m with activeFaults := m.activeFaults.filter (fun p => p.1 ≠ key) }

/-- Number of active records stored under a given key. -/
def countKey (m : FaultManager) (key : String) : Nat :=
  (m.activeFaults.filter (fun p => p.1 = key)).length

/-- One iteration of the history scan of `estimateMTBF`: starting from
invalid (`none`) `firstFault` / `lastFault`, a matching timestamp
replaces `firstFault` when earlier and `lastFault` when later. -/
def slStep (acc : Option Int × Option Int) (ts : Int) : Option Int × Option Int :=
  (match acc.1 with
   | none => some ts
   | some t => if ts < t then some ts else some t,
   match acc.2 with
   | none => some ts
   | some t => if t < ts then some ts else some t)

/-- The full history scan of `estimateMTBF`. -/
def scanFirstLast (tss : List Int) : Option Int × Option Int :=
  tss.foldl slStep (none, none)

/-- `FaultManager::estimateMTBF` (src/core/FaultManager.cpp).
Returns the sentinel `-1` for "not enough data"; otherwise the span in
milliseconds between the unit's earliest and latest history entries,
converted to hours and divided by `faultCount - 1`. -/
def estimateMTBF (m : FaultManager) (subsystemId : String) : ℚ :=
  let faultCount := (m.subsystemFaultCounts.lookup subsystemId).getD 0
  if faultCount < 2 then -1
  else
    let tss := (m.faultHistory.filter (fun f => f.subsystemId = subsystemId)).map
      (fun f => f.timestamp)
    match scanFirstLast tss with
    | (some first, some last) =>
        let totalTimeMs := msecsTo first last
        if totalTimeMs ≤ 0 then -1
        else ((totalTimeMs : ℚ) / 3600000) / ((faultCount : ℚ) - 1)
    | _ => -1

end FaultManager

/-! ## UptimeTracker (src/analytics/UptimeTracker.cpp) -/

/-- `UptimeTracker::UptimeRecord` (include/analytics/UptimeTracker.h). -/
structure UptimeRecord where
  subsystemId : String
  startTime : Int
  totalUptimeMs : Int
  totalDowntimeMs : Int
  currentState : HealthState
  lastStateChange : Int
  stateTransitions : Nat
deriving DecidableEq, Repr

namespace UptimeRecord

/-- `UptimeRecord::getAvailability`. -/
def getAvailability (r : UptimeRecord) : ℚ :=
  let total := r.totalUptimeMs + r.totalDowntimeMs
  if 0 < total then (r.totalUptimeMs : ℚ) / (total : ℚ) * 100 else 100

end UptimeRecord

/-- `UptimeTracker` state: the `m_records` map. Snapshot history and
timers are not relevant to the modelled operations. -/
structure UptimeTracker where
  records : List (String × UptimeRecord)
deriving Repr

namespace UptimeTracker

/-- `UptimeTracker::registerSubsystem`: no-op if already present,
otherwise inserts a fresh record (state `UNKNOWN`, zero totals, zero
transitions). `now` stands for `QDateTime::currentDateTime()`. -/
def registerSubsystem (t : UptimeTracker) (subsystemId : String) (now : Int) :
    UptimeTracker :=
  if (t.records.lookup subsystemId).isSome then t
  else
    { records := FaultManager.alSet t.records subsystemId
        { subsystemId := subsystemId
          startTime := now
          totalUptimeMs := 0
          totalDowntimeMs := 0
          currentState := HealthState.UNKNOWN
          lastStateChange := now
          stateTransitions := 0 } }

/-- The body of `UptimeTracker::updateState` acting on the record found
(or just created) for the subsystem. -/
def applyStateChange (r : UptimeRecord) (state : HealthState) (now : Int) :
    UptimeRecord :=
  if r.currentState ≠ state then
    let durationMs := msecsTo r.lastStateChange now
    let r :=
      if r.currentState = HealthState.OK ∨ r.currentState = HealthState.DEGRADED then
        { r with totalUptimeMs := r.totalUptimeMs + durationMs }
      else if r.currentState = HealthState.FAIL then
        { r with totalDowntimeMs := r.totalDowntimeMs + durationMs }
      else r
    { r with
      currentState := state
      lastStateChange := now
      stateTransitions := r.stateTransitions + 1 }
  else r

/-- `UptimeTracker::updateState`: registers the subsystem first when it
is unknown, then applies the state change to its record. -/
def updateState (t : UptimeTracker) (subsystemId : String) (state : HealthState)
    (now : Int) : UptimeTracker :=
  let t := if (t.records.lookup subsystemId).isSome then t
           else registerSubsystem t subsystemId now
  { records :=
      t.records.map fun p =>
        if p.1 = subsystemId then (p.1, applyStateChange p.2 state now) else p }

/-- `UptimeTracker::getSystemAvailability`: availability over the summed
uptimes and downtimes of all registered units. -/
def getSystemAvailability (t : UptimeTracker) : ℚ :=
  let totalUp := (t.records.map (fun p => p.2.totalUptimeMs)).sum
  let totalDown := (t.records.map (fun p => p.2.totalDowntimeMs)).sum
  let total := totalUp + totalDown
  if 0 < total then (totalUp : ℚ) / (total : ℚ) * 100 else 100

end UptimeTracker

/-! ## Update scheduler (src/core/SubsystemManager.cpp) -/

/-- The throttle/debounce state of `SubsystemManager`:
`m_healthUpdatePending`, the single-shot `m_throttleTimer` (modelled by
its pending fire deadline, `none` when inactive) and a counter of
completed system-wide recomputation passes (`computeSystemHealth` calls
made by `onThrottledUpdate`). -/
structure SchedulerState where
  healthUpdatePending : Bool
  timerDeadline : Option Int
  recomputeCount : Nat
deriving DecidableEq, Repr

namespace SchedulerState

/-- `SubsystemManager::scheduleHealthUpdate`: mark the pending flag and
start the timer only if it is not already active. -/
def scheduleHealthUpdate (s : SchedulerState) (now updateInterval : Int) :
    SchedulerState :=
  { s with
    healthUpdatePending := true
    timerDeadline :=
      match s.timerDeadline with
      | some d => some d
      | none => some (now + updateInterval) }

/-- `SubsystemManager::onThrottledUpdate`, fired by the single-shot
timer (which therefore deactivates): if nothing is pending, return;
otherwise clear the pending flag and perform one recomputation pass. -/
def onThrottledUpdate (s : SchedulerState) : SchedulerState :=
  let s := { s with timerDeadline := none }
  if !s.healthUpdatePending then s
  else
    { s with
      healthUpdatePending := false
      recomputeCount := s.recomputeCount + 1 }

end SchedulerState

/-! ## HealthDataPipeline (src/core/HealthDataPipeline.cpp) -/

/-- A C++ `double`: finite (modelled as `ℚ`) or one of the non-finite
values NaN, +∞, −∞. -/
inductive Dbl
  | fin (q : ℚ)
  | nan
  | pinf
  | ninf
deriving DecidableEq, Repr

namespace Dbl

/-- `std::isnan(v) || std::isinf(v)`. -/
def nonFinite : Dbl → Bool
  | fin _ => false
  | _ => true

/-- `v > c` for a double `v` and finite `c` (IEEE: NaN compares false). -/
def gtQ : Dbl → ℚ → Bool
  | fin q, c => decide (c < q)
  | nan, _ => false
  | pinf, _ => true
  | ninf, _ => false

/-- `v < c` for a double `v` and finite `c`. -/
def ltQ : Dbl → ℚ → Bool
  | fin q, c => decide (q < c)
  | nan, _ => false
  | pinf, _ => false
  | ninf, _ => true

/-- The finite payload, defaulting to `0`; used only in branches whose
guards already force finiteness. -/
def toQ : Dbl → ℚ
  | fin q => q
  | _ => 0

end Dbl

/-- A `QVariant` telemetry value as the pipeline distinguishes them:
a numeric value (`double`), a string, a bool, or a null variant. -/
inductive QVal
  | num (d : Dbl)
  | str (s : String)
  | boolv (b : Bool)
  | nullv
deriving DecidableEq, Repr

namespace QVal

/-- `QVariant::canConvert<double>()`: true for numeric, string and bool
variants, false for the null/invalid variant. -/
def canConvertDouble : QVal → Bool
  | nullv => false
  | _ => true

/-- `QVariant::toDouble()`, with string parsing abstracted as `parse`
(failed parses yield `0.0`). -/
def toDouble (parse : String → Option ℚ) : QVal → Dbl
  | num d => d
  | str s => Dbl.fin ((parse s).getD 0)
  | boolv b => Dbl.fin (if b then 1 else 0)
  | nullv => Dbl.fin 0

end QVal

/-- Telemetry payloads (`QVariantMap`) as association lists. -/
abbrev VarMap := List (String × QVal)

/-- A per-parameter threshold table entry. In the pipeline this is a
nested `QVariantMap`; every table in the repository is built from finite
numeric literals, so the fields are `Option ℚ` (`none` = key absent). -/
structure ParamThresholds where
  warningLow : Option ℚ := none
  warningHigh : Option ℚ := none
  criticalLow : Option ℚ := none
  criticalHigh : Option ℚ := none
deriving DecidableEq, Repr

/-- A per-unit threshold table (parameter name → thresholds). -/
abbrev ThresholdMap := List (String × ParamThresholds)

namespace HealthDataPipeline

/-- `HealthDataPipeline::validateRequired`: every field listed in the
schema's `required` list must be a key of the data map. A missing or
empty schema has an empty `required` list and always passes. -/
def validateRequired (data : VarMap) (required : List String) : Bool :=
  required.all fun field => data.any fun p => p.1 = field

/-- The loop body of `HealthDataPipeline::validateDataTypes` for one
value: null values are skipped; a string value fails when it is one of
the sentinel strings "NaN" / "Infinity" / "-Infinity". -/
def typeOk : QVal → Bool
  | QVal.nullv => true
  | QVal.str s => !(s = "NaN" || s = "Infinity" || s = "-Infinity")
  | _ => true

/-- `HealthDataPipeline::validateDataTypes`: reject when any non-null
value is a sentinel string. -/
def validateDataTypes (data : VarMap) : Bool :=
  data.all fun p => typeOk p.2

/-- `HealthDataPipeline::validateRanges`: false when any convertible
value converts to a non-finite double. -/
def validateRanges (parse : String → Option ℚ) (data : VarMap) : Bool :=
  data.all fun p =>
    if p.2.canConvertDouble then !(p.2.toDouble parse).nonFinite else true

/-- `HealthDataPipeline::sanitizeData`: coerce string values that parse
as numbers to numeric values; leave everything else unchanged. -/
def sanitizeData (parse : String → Option ℚ) (data : VarMap) : VarMap :=
  data.map fun p =>
    match p.2 with
    | QVal.str s =>
        match parse s with
        | some d => (p.1, QVal.num (Dbl.fin d))
        | none => (p.1, QVal.str s)
    | _ => p

/-- `HealthDataPipeline::ValidationResult`. -/
structure ValidationResult where
  valid : Bool
  errorMessage : String
  warnings : List String
  sanitizedData : VarMap
deriving Repr

/-- `HealthDataPipeline::validateData`: required-field check, then the
sentinel-string type check, then the (non-rejecting) range check, then
sanitization. -/
def validateData (parse : String → Option ℚ)
    (schemas : List (String × List String)) (subsystemId : String)
    (data : VarMap) : ValidationResult :=
  let required := (schemas.lookup subsystemId).getD []
  if !validateRequired data required then
    { valid := false, errorMessage := "Missing required fields",
      warnings := [], sanitizedData := data }
  else if !validateDataTypes data then
    { valid := false, errorMessage := "Invalid data types",
      warnings := [], sanitizedData := data }
  else
    { valid := true, errorMessage := "",
      warnings :=
        if !validateRanges parse data then ["Some values outside expected range"]
        else [],
      sanitizedData := sanitizeData parse data }

/-- A `contains(key) && <comparison>` guard on an optional threshold. -/
def chk (o : Option ℚ) (test : ℚ → Bool) : Bool :=
  match o with
  | some c => test c
  | none => false

/-- `HealthDataPipeline::computeHealthState`: the per-parameter
critical-high / critical-low / warning-high / warning-low else-if chain,
accumulated into `(hasCritical, hasWarning)`. -/
def computeHealthState (parse : String → Option ℚ) (data : VarMap)
    (thresholds : ThresholdMap) : HealthState :=
  let flags := data.foldl
    (fun (acc : Bool × Bool) p =>
      if !p.2.canConvertDouble then acc
      else
        match thresholds.lookup p.1 with
        | none => acc
        | some pt =>
          let value := p.2.toDouble parse
          if chk pt.criticalHigh (fun c => value.gtQ c) then (true, acc.2)
          else if chk pt.criticalLow (fun c => value.ltQ c) then (true, acc.2)
          else if chk pt.warningHigh (fun c => value.gtQ c) then (acc.1, true)
          else if chk pt.warningLow (fun c => value.ltQ c) then (acc.1, true)
          else acc)
    (false, false)
  if flags.1 then HealthState.FAIL
  else if flags.2 then HealthState.DEGRADED
  else HealthState.OK

/-- The score reduction one parameter contributes in
`HealthDataPipeline::computeHealthScore`: a flat 30 beyond the critical
threshold, a linear `10 + 20·ratio` between warning and critical. The
high-side and low-side blocks are independent, as in the source. -/
def paramScoreDelta (pt : ParamThresholds) (value : Dbl) : ℚ :=
  let hi :=
    match pt.criticalHigh, pt.warningHigh with
    | some critical, some warning =>
        if value.gtQ critical then (30 : ℚ)
        else if value.gtQ warning then
          10 + 20 * ((value.toQ - warning) / (critical - warning))
        else 0
    | _, _ => 0
  let lo :=
    match pt.criticalLow, pt.warningLow with
    | some critical, some warning =>
        if value.ltQ critical then (30 : ℚ)
        else if value.ltQ warning then
          10 + 20 * ((warning - value.toQ) / (warning - critical))
        else 0
    | _, _ => 0
  hi + lo

/-- `HealthDataPipeline::computeHealthScore`: start at 100, subtract the
per-parameter deltas, clamp with `qMax(0.0, qMin(100.0, score))`. -/
def computeHealthScore (parse : String → Option ℚ) (data : VarMap)
    (thresholds : ThresholdMap) : ℚ :=
  let score := data.foldl
    (fun (s : ℚ) p =>
      if !p.2.canConvertDouble then s
      else
        match thresholds.lookup p.1 with
        | none => s
        | some pt => s - paramScoreDelta pt (p.2.toDouble parse))
    100
  max 0 (min 100 score)

/-- `HealthDataPipeline::detectFaults`: one CRITICAL fault per breached
critical threshold, named `PARAM-HIGH` / `PARAM-LOW`. -/
def detectFaults (parse : String → Option ℚ) (subsystemId : String)
    (data : VarMap) (thresholds : ThresholdMap) (now : Int) : List FaultCode :=
  data.foldl
    (fun (faults : List FaultCode) p =>
      if !p.2.canConvertDouble then faults
      else
        match thresholds.lookup p.1 with
        | none => faults
        | some pt =>
          let value := p.2.toDouble parse
          let faults :=
            if chk pt.criticalHigh (fun c => value.gtQ c) then
              faults ++ [{ code := p.1.toUpper ++ "-HIGH"
                           description := p.1 ++ " exceeded critical threshold"
                           severity := FaultSeverity.CRITICAL
                           timestamp := now
                           subsystemId := subsystemId
                           active := true }]
            else faults
          if chk pt.criticalLow (fun c => value.ltQ c) then
            faults ++ [{ code := p.1.toUpper ++ "-LOW"
                         description := p.1 ++ " below critical threshold"
                         severity := FaultSeverity.CRITICAL
                         timestamp := now
                         subsystemId := subsystemId
                         active := true }]
          else faults)
    []

/-- `HealthDataPipeline::ProcessingResult`. -/
structure ProcessingResult where
  computedState : HealthState
  healthScore : ℚ
  detectedFaults : List FaultCode
  statusMessage : String
deriving Repr

/-- `HealthDataPipeline::processData` over already-validated data. -/
def processData (parse : String → Option ℚ) (subsystemId : String)
    (thresholds : ThresholdMap) (data : VarMap) (now : Int) : ProcessingResult :=
  let state := computeHealthState parse data thresholds
  { computedState := state
    healthScore := computeHealthScore parse data thresholds
    detectedFaults := detectFaults parse subsystemId data thresholds now
    statusMessage :=
      if state = HealthState.OK then "Operating normally"
      else if state = HealthState.DEGRADED then "Degraded performance"
      else if state = HealthState.FAIL then "System failure"
      else "Status unknown" }

/-- The externally visible emissions of one `processQueue` iteration. -/
inductive PipeEvent
  | validationError (subsystemId msg : String)
  | dataProcessed (subsystemId : String) (state : HealthState) (score : ℚ)
  | healthStateComputed (subsystemId : String) (state : HealthState) (score : ℚ)
  | faultDetected (subsystemId code : String)
deriving DecidableEq, Repr

/-- One iteration of the `HealthDataPipeline::processQueue` loop body on
a dequeued item: an invalid item increments the error counter and emits
only a `validationError`; a valid item is processed, increments the
processed counter, and emits its computed state, score and faults. -/
def processItem (parse : String → Option ℚ)
    (schemas : List (String × List String))
    (thresholds : List (String × ThresholdMap))
    (defaultThresholds : ThresholdMap) (now : Int)
    (processedCount errorCount : Nat) (item : String × VarMap) :
    (Nat × Nat) × List PipeEvent :=
  let validation := validateData parse schemas item.1 item.2
  if !validation.valid then
    ((processedCount, errorCount + 1),
      [PipeEvent.validationError item.1 validation.errorMessage])
  else
    let thr := (thresholds.lookup item.1).getD defaultThresholds
    let result := processData parse item.1 thr validation.sanitizedData now
    ((processedCount + 1, errorCount),
      PipeEvent.dataProcessed item.1 result.computedState result.healthScore ::
      PipeEvent.healthStateComputed item.1 result.computedState result.healthScore ::
      result.detectedFaults.map (fun f => PipeEvent.faultDetected item.1 f.code))

end HealthDataPipeline

/-! ## Per-unit health state machines
(src/core/RadarSubsystem.cpp, src/subsystems/PowerSupplySubsystem.cpp) -/

namespace RadarSubsystem

/-- `RadarSubsystem::computeHealthState` (the base-class default):
UNKNOWN if disabled; FAIL on any active CRITICAL/FATAL fault; DEGRADED
on any active WARNING fault; otherwise OK. -/
def computeHealthState (enabled : Bool) (activeFaults : List FaultCode) :
    HealthState :=
  if !enabled then HealthState.UNKNOWN
  else
    let hasCritical := activeFaults.any fun f =>
      f.severity = FaultSeverity.FATAL || f.severity = FaultSeverity.CRITICAL
    let hasWarning := activeFaults.any fun f =>
      f.severity = FaultSeverity.WARNING
    if hasCritical then HealthState.FAIL
    else if hasWarning then HealthState.DEGRADED
    else HealthState.OK

/-- The flat penalty one active fault contributes in
`RadarSubsystem::computeHealthScore`. -/
def faultPenalty : FaultSeverity → ℚ
  | FaultSeverity.INFO => 5
  | FaultSeverity.WARNING => 15
  | FaultSeverity.CRITICAL => 30
  | FaultSeverity.FATAL => 50

/-- `RadarSubsystem::computeHealthScore` (the base-class default):
100 minus a flat per-fault penalty, floored at 0 with `qMax(0.0, score)`
(no upper clamp in the source). -/
def computeHealthScore (activeFaults : List FaultCode) : ℚ :=
  let score := activeFaults.foldl (fun s f => s - faultPenalty f.severity) 100
  max 0 score

end RadarSubsystem

namespace PowerSupplySubsystem

/-- Threshold constants (include/subsystems/PowerSupplySubsystem.h). -/
def INPUT_VOLTAGE_LOW_WARNING : ℚ := 200
def INPUT_VOLTAGE_LOW_CRITICAL : ℚ := 180
def INPUT_VOLTAGE_HIGH_WARNING : ℚ := 250
def INPUT_VOLTAGE_HIGH_CRITICAL : ℚ := 270
def BATTERY_WARNING : ℚ := 30
def BATTERY_CRITICAL : ℚ := 10
def TEMP_WARNING : ℚ := 50
def TEMP_CRITICAL : ℚ := 65

/-- The telemetry the PSU health functions read (`getInputVoltage()`,
`getBatteryLevel()`, `getTemperature()`, `isOnBattery()`), as the finite
doubles `toDouble` yields for them. -/
structure PsuTelemetry where
  inputVoltage : ℚ
  batteryLevel : ℚ
  temperature : ℚ
  onBattery : Bool
deriving DecidableEq, Repr

/-- `PowerSupplySubsystem::computeHealthState`: UNKNOWN if disabled;
FAIL on a critical threshold condition; DEGRADED on a warning threshold
condition, on battery, or when any active fault exists (regardless of
its severity); otherwise OK. -/
def computeHealthState (enabled : Bool) (tel : PsuTelemetry)
    (activeFaults : List FaultCode) : HealthState :=
  if !enabled then HealthState.UNKNOWN
  else if tel.inputVoltage ≤ INPUT_VOLTAGE_LOW_CRITICAL ∨
          INPUT_VOLTAGE_HIGH_CRITICAL ≤ tel.inputVoltage ∨
          TEMP_CRITICAL ≤ tel.temperature ∨
          (tel.onBattery ∧ tel.batteryLevel ≤ BATTERY_CRITICAL) then
    HealthState.FAIL
  else if tel.inputVoltage ≤ INPUT_VOLTAGE_LOW_WARNING ∨
          INPUT_VOLTAGE_HIGH_WARNING ≤ tel.inputVoltage ∨
          TEMP_WARNING ≤ tel.temperature ∨
          (tel.onBattery ∧ tel.batteryLevel ≤ BATTERY_WARNING) then
    HealthState.DEGRADED
  else if tel.onBattery then HealthState.DEGRADED
  else if !activeFaults.isEmpty then HealthState.DEGRADED
  else HealthState.OK

/-- `PowerSupplySubsystem::computeHealthScore`: input-voltage, thermal
and battery penalties (linear between warning and critical, flat beyond
critical), 5 points per active fault, clamped to [0, 100]. -/
def computeHealthScore (tel : PsuTelemetry) (faultCount : Nat) : ℚ :=
  let score : ℚ := 100
  let score :=
    if tel.inputVoltage ≤ INPUT_VOLTAGE_LOW_CRITICAL ∨
       INPUT_VOLTAGE_HIGH_CRITICAL ≤ tel.inputVoltage then score - 35
    else if tel.inputVoltage ≤ INPUT_VOLTAGE_LOW_WARNING then
      score - 15 * (INPUT_VOLTAGE_LOW_WARNING - tel.inputVoltage) /
        (INPUT_VOLTAGE_LOW_WARNING - INPUT_VOLTAGE_LOW_CRITICAL)
    else if INPUT_VOLTAGE_HIGH_WARNING ≤ tel.inputVoltage then
      score - 15 * (tel.inputVoltage - INPUT_VOLTAGE_HIGH_WARNING) /
        (INPUT_VOLTAGE_HIGH_CRITICAL - INPUT_VOLTAGE_HIGH_WARNING)
    else score
  let score :=
    if TEMP_CRITICAL ≤ tel.temperature then score - 30
    else if TEMP_WARNING ≤ tel.temperature then
      score - 15 * (tel.temperature - TEMP_WARNING) / (TEMP_CRITICAL - TEMP_WARNING)
    else score
  let score :=
    if tel.onBattery then
      let score := score - 10
      if tel.batteryLevel ≤ BATTERY_CRITICAL then score - 25
      else if tel.batteryLevel ≤ BATTERY_WARNING then
        score - 15 * (BATTERY_WARNING - tel.batteryLevel) /
          (BATTERY_WARNING - BATTERY_CRITICAL)
      else score
    else score
  let score := score - (faultCount : ℚ) * 5
  max 0 (min 100 score)

/-- The factory-nominal PSU telemetry set in
`PowerSupplySubsystem::initializeTelemetryParameters`. -/
def nominalTelemetry : PsuTelemetry :=
  { inputVoltage := 220, batteryLevel := 100, temperature := 35, onBattery := false }

end PowerSupplySubsystem

/-! ## TrendAnalyzer statistics (src/analytics/TrendAnalyzer.cpp)

The retained series for one (unit, parameter) is the list of stored
point values; the anomaly statistics read only the values. Finite double
arithmetic is modelled over `ℚ`; `std::sqrt` forces the standard
deviation and z-score into `ℝ`. -/

namespace TrendAnalyzer

/-- `TrendAnalyzer::computeMean`: 0 for an empty series. -/
def computeMean (data : List ℚ) : ℚ :=
  if data.isEmpty then 0 else data.sum / (data.length : ℚ)

/-- The sum of squared deviations accumulated by
`TrendAnalyzer::computeStdDev`. -/
def sumSq (data : List ℚ) (mean : ℚ) : ℚ :=
  (data.map fun v => (v - mean) * (v - mean)).sum

/-- `TrendAnalyzer::computeStdDev`: 0 with fewer than two points,
otherwise `sqrt(sumSq / (n - 1))` (sample standard deviation). -/
noncomputable def computeStdDev (data : List ℚ) (mean : ℚ) : ℝ :=
  if data.length < 2 then 0
  else Real.sqrt ((sumSq data mean : ℝ) / ((data.length : ℝ) - 1))

/-- `TrendAnalyzer::computeZScore`: 0 when the standard deviation is
below the `1e-10` guard, else `(value - mean) / stdDev`. -/
noncomputable def computeZScore (value mean : ℚ) (stdDev : ℝ) : ℝ :=
  if stdDev < 1 / 10 ^ 10 then 0 else ((value : ℝ) - (mean : ℝ)) / stdDev

/-- `TrendAnalyzer::isAnomaly` on the retained series of one
(unit, parameter): false (missing key or) below 10 points, otherwise
`|zScore| > threshold`. The default `m_anomalyThreshold` is 3. -/
def isAnomaly (data : List ℚ) (value : ℚ) (threshold : ℚ) : Prop :=
  if data.length < 10 then False
  else
    |computeZScore value (computeMean data)
        (computeStdDev data (computeMean data))| > (threshold : ℝ)

end TrendAnalyzer

/-! ## Concrete example inputs used by witnesses and counterexamples -/

/-- A burst of `scheduleHealthUpdate` calls at the given times. -/
def SchedulerState.burst (s : SchedulerState) (updateInterval : Int)
    (times : List Int) : SchedulerState :=
  times.foldl (fun st t => st.scheduleHealthUpdate t updateInterval) s

/-- A CRITICAL fault as the fault-injection tooling can attach to a unit
(`FaultInjector` invokes `addFault` with a configured severity). -/
def exCriticalFault : FaultCode :=
  { code := "PSU-001", description := "Input voltage low",
    severity := FaultSeverity.CRITICAL, timestamp := 1000,
    subsystemId := "psu1", active := true }

/-- A WARNING fault for witness instantiations. -/
def exWarningFault : FaultCode :=
  { code := "COOL-002", description := "Coolant flow low",
    severity := FaultSeverity.WARNING, timestamp := 2000,
    subsystemId := "cool1", active := true }

/-- A second fault of the same unit as `exCriticalFault`, two hours
later, for MTBF evaluation. -/
def exLaterFault : FaultCode :=
  { code := "PSU-006", description := "PSU overtemperature",
    severity := FaultSeverity.CRITICAL, timestamp := 7201000,
    subsystemId := "psu1", active := true }

/-- A fault manager holding two historical faults of unit `psu1`,
spanning 7 200 000 ms (two hours). -/
def exManager : FaultManager :=
  (FaultManager.init.registerFault exCriticalFault).registerFault exLaterFault

/-- A string parser accepting nothing; stands in for `QString::toDouble`
on inputs that contain no string values. -/
def parseNone : String → Option ℚ := fun _ => none

/-- A string parser for witness runs: accepts exactly "42". -/
def parse42 : String → Option ℚ := fun s => if s = "42" then some 42 else none

/-- The default pipeline threshold table built in the
`HealthDataPipeline` constructor: `temperature` with warningHigh 60 and
criticalHigh 80. -/
def defaultPipelineThresholds : ThresholdMap :=
  [("temperature", { warningHigh := some 60, criticalHigh := some 80 })]

/-- A ten-point retained series with mean 0 and sample variance 10. -/
def exSeries : List ℚ := [3, 3, 3, 3, 3, -3, -3, -3, -3, -3]

/-! ## Shared association-list lemmas -/

theorem alSet_lookup_self {α : Type} (l : List (String × α)) (k : String) (v : α) :
    (FaultManager.alSet l k v).lookup k = some v := by
  induction l with
  | nil => simp [FaultManager.alSet, List.lookup]
  | cons p t ih =>
      obtain ⟨k', v'⟩ := p
      by_cases hk : k' = k
      · subst hk
        simp [FaultManager.alSet, List.lookup]
      · simp only [FaultManager.alSet, if_neg hk, List.lookup]
        have : (k == k') = false := by
          simpa using fun h => hk h.symm
        rw [this]
        exact ih

theorem lookup_none_filter_key {α : Type} (l : List (String × α)) (k : String)
    (h : l.lookup k = none) : l.filter (fun p => p.1 = k) = [] := by
  induction l with
  | nil => rfl
  | cons p t ih =>
      obtain ⟨k', v'⟩ := p
      rw [List.lookup] at h
      by_cases hk : k = k'
      · rw [show (k == k') = true by simpa using hk] at h
        exact absurd h (by simp)
      · rw [show (k == k') = false by simpa using hk] at h
        have hk' : ¬ k' = k := fun h' => hk h'.symm
        simpa [List.filter, hk'] using ih h

theorem lookup_none_alSet_append {α : Type} (l : List (String × α)) (k : String)
    (v : α) (h : l.lookup k = none) :
    FaultManager.alSet l k v = l ++ [(k, v)] := by
  induction l with
  | nil => rfl
  | cons p t ih =>
      obtain ⟨k', v'⟩ := p
      rw [List.lookup] at h
      by_cases hk : k = k'
      · rw [show (k == k') = true by simpa using hk] at h
        exact absurd h (by simp)
      · rw [show (k == k') = false by simpa using hk] at h
        have hk' : ¬ k' = k := fun h' => hk h'.symm
        simp [FaultManager.alSet, hk', ih h]

/-! ## C5 — burst throttling collapses to one recomputation pass -/

theorem scheduleHealthUpdate_armed_id (s : SchedulerState) (t i : Int)
    (hp : s.healthUpdatePending = true) (d : Int)
    (ht : s.timerDeadline = some d) :
    s.scheduleHealthUpdate t i = s := by
  obtain ⟨p, td, c⟩ := s
  simp only at hp ht
  subst hp ht
  rfl

theorem burst_armed_id (i : Int) (ts : List Int) :
    ∀ (s : SchedulerState) (d : Int), s.healthUpdatePending = true →
      s.timerDeadline = some d → SchedulerState.burst s i ts = s := by
  induction ts with
  | nil => intro s d _ _; rfl
  | cons t ts ih =>
      intro s d hp ht
      show SchedulerState.burst (s.scheduleHealthUpdate t i) i ts = s
      rw [scheduleHealthUpdate_armed_id s t i hp d ht]
      exact ih s d hp ht

/-- **C5.** From an idle scheduler (no pending flag, timer inactive), a
burst of `N ≥ 1` `scheduleHealthUpdate` calls within one armed throttle
window arms the single-shot timer once at the first call's deadline;
every further call only leaves the pending flag set and never re-arms or
restarts the timer; no recomputation happens during the burst; and the
timer firing performs exactly one system-wide recomputation pass and
clears the pending flag. -/
theorem scheduler_burst_single_recompute (s : SchedulerState)
    (updateInterval t0 : Int) (ts : List Int)
    (hp : s.healthUpdatePending = false) (ht : s.timerDeadline = none) :
    (SchedulerState.burst s updateInterval (t0 :: ts)).timerDeadline
        = some (t0 + updateInterval) ∧
    (SchedulerState.burst s updateInterval (t0 :: ts)).healthUpdatePending
        = true ∧
    (SchedulerState.burst s updateInterval (t0 :: ts)).recomputeCount
        = s.recomputeCount ∧
    (SchedulerState.burst s updateInterval (t0 :: ts)).onThrottledUpdate =
      { healthUpdatePending := false, timerDeadline := none,
        recomputeCount := s.recomputeCount + 1 } := by
  obtain ⟨p, td, c⟩ := s
  simp only at hp ht
  subst hp ht
  have h1 : SchedulerState.burst ⟨false, none, c⟩ updateInterval (t0 :: ts)
      = ⟨true, some (t0 + updateInterval), c⟩ := by
    show SchedulerState.burst
        (SchedulerState.scheduleHealthUpdate ⟨false, none, c⟩ t0 updateInterval)
        updateInterval ts = _
    exact burst_armed_id updateInterval ts _ (t0 + updateInterval) rfl rfl
  rw [h1]
  exact ⟨rfl, rfl, rfl, rfl⟩

/-- Witness for C5: a concrete burst of four calls yields exactly one
recomputation pass when the timer fires. -/
theorem scheduler_burst_single_recompute_witness :
    (SchedulerState.burst ⟨false, none, 0⟩ 100 [0, 1, 2, 3]).onThrottledUpdate =
      { healthUpdatePending := false, timerDeadline := none,
        recomputeCount := 1 } :=
  (scheduler_burst_single_recompute ⟨false, none, 0⟩ 100 0 [1, 2, 3]
    rfl rfl).2.2.2

/-! ## C6 — availability formula -/

theorem register_lookup_fresh (t : UptimeTracker) (id : String) (now : Int)
    (h : t.records.lookup id = none) :
    (t.registerSubsystem id now).records.lookup id =
      some { subsystemId := id, startTime := now, totalUptimeMs := 0,
             totalDowntimeMs := 0, currentState := HealthState.UNKNOWN,
             lastStateChange := now, stateTransitions := 0 } := by
  unfold UptimeTracker.registerSubsystem
  rw [h]
  simp [alSet_lookup_self]

theorem intCast_list_sum (l : List Int) :
    ((l.sum : Int) : ℚ) = (l.map (fun x : Int => (x : ℚ))).sum := by
  induction l with
  | nil => simp
  | cons x t ih => simp [ih]

/-- **C6.** Per-unit availability is `uptime/(uptime+downtime)·100`, and
100 when no time has been attributed; system availability uses the same
formula over the summed uptimes and downtimes of all registered units;
and a freshly registered unit reports 100. Non-negativity of the
accumulated totals holds in every reachable state (durations of a
monotone clock). -/
theorem availability_formula :
    (∀ r : UptimeRecord, 0 ≤ r.totalUptimeMs → 0 ≤ r.totalDowntimeMs →
      (r.totalUptimeMs + r.totalDowntimeMs = 0 → r.getAvailability = 100) ∧
      (r.totalUptimeMs + r.totalDowntimeMs ≠ 0 →
        r.getAvailability =
          (r.totalUptimeMs : ℚ) /
            ((r.totalUptimeMs : ℚ) + (r.totalDowntimeMs : ℚ)) * 100)) ∧
    (∀ t : UptimeTracker,
      (∀ p ∈ t.records, 0 ≤ p.2.totalUptimeMs ∧ 0 ≤ p.2.totalDowntimeMs) →
      ((t.records.map (fun p => p.2.totalUptimeMs)).sum +
          (t.records.map (fun p => p.2.totalDowntimeMs)).sum = 0 →
        t.getSystemAvailability = 100) ∧
      ((t.records.map (fun p => p.2.totalUptimeMs)).sum +
          (t.records.map (fun p => p.2.totalDowntimeMs)).sum ≠ 0 →
        t.getSystemAvailability =
          ((t.records.map (fun p => p.2.totalUptimeMs)).sum : ℚ) /
            (((t.records.map (fun p => p.2.totalUptimeMs)).sum : ℚ) +
              ((t.records.map (fun p => p.2.totalDowntimeMs)).sum : ℚ)) * 100)) ∧
    (∀ (t : UptimeTracker) (id : String) (now : Int),
      t.records.lookup id = none →
      ∃ r, (t.registerSubsystem id now).records.lookup id = some r ∧
        r.getAvailability = 100) := by
  refine ⟨fun r hu hd => ⟨fun h0 => ?_, fun hne => ?_⟩,
          fun t ht => ⟨fun h0 => ?_, fun hne => ?_⟩,
          fun t id now h => ?_⟩
  · simp [UptimeRecord.getAvailability, h0]
  · have hpos : 0 < r.totalUptimeMs + r.totalDowntimeMs :=
      lt_of_le_of_ne (add_nonneg hu hd) (Ne.symm hne)
    simp only [UptimeRecord.getAvailability, if_pos hpos]
    rw [Int.cast_add]
  · simp [UptimeTracker.getSystemAvailability, h0]
  · have hu : 0 ≤ (t.records.map (fun p => p.2.totalUptimeMs)).sum :=
      List.sum_nonneg (by
        intro x hx
        obtain ⟨p, hp, rfl⟩ := List.mem_map.mp hx
        exact (ht p hp).1)
    have hd : 0 ≤ (t.records.map (fun p => p.2.totalDowntimeMs)).sum :=
      List.sum_nonneg (by
        intro x hx
        obtain ⟨p, hp, rfl⟩ := List.mem_map.mp hx
        exact (ht p hp).2)
    have hpos : 0 < (t.records.map (fun p => p.2.totalUptimeMs)).sum +
        (t.records.map (fun p => p.2.totalDowntimeMs)).sum :=
      lt_of_le_of_ne (add_nonneg hu hd) (Ne.symm hne)
    simp only [UptimeTracker.getSystemAvailability, if_pos hpos]
    rw [Int.cast_add, intCast_list_sum, intCast_list_sum, List.map_map,
      List.map_map]
    rfl
  · exact ⟨_, register_lookup_fresh t id now h, by
      simp [UptimeRecord.getAvailability]⟩

/-- Witness for C6: concrete records and a two-unit tracker. -/
theorem availability_formula_witness :
    ({ subsystemId := "tx1", startTime := 0, totalUptimeMs := 3,
       totalDowntimeMs := 1, currentState := HealthState.OK,
       lastStateChange := 0, stateTransitions := 1 } :
        UptimeRecord).getAvailability = 75 ∧
    (UptimeTracker.mk
      [("a", { subsystemId := "a", startTime := 0, totalUptimeMs := 1,
               totalDowntimeMs := 0, currentState := HealthState.OK,
               lastStateChange := 0, stateTransitions := 1 }),
       ("b", { subsystemId := "b", startTime := 0, totalUptimeMs := 1,
               totalDowntimeMs := 2, currentState := HealthState.FAIL,
               lastStateChange := 0, stateTransitions := 2 })]).getSystemAvailability
      = 50 := by
  constructor
  · have h := ((availability_formula.1
      { subsystemId := "tx1", startTime := 0, totalUptimeMs := 3,
        totalDowntimeMs := 1, currentState := HealthState.OK,
        lastStateChange := 0, stateTransitions := 1 })
      (by decide) (by decide)).2 (by decide)
    rw [h]
    norm_num
  · have h := ((availability_formula.2.1
      (UptimeTracker.mk
        [("a", { subsystemId := "a", startTime := 0, totalUptimeMs := 1,
                 totalDowntimeMs := 0, currentState := HealthState.OK,
                 lastStateChange := 0, stateTransitions := 1 }),
         ("b", { subsystemId := "b", startTime := 0, totalUptimeMs := 1,
                 totalDowntimeMs := 2, currentState := HealthState.FAIL,
                 lastStateChange := 0, stateTransitions := 2 })]))
      (by decide)).2 (by decide)
    rw [h]
    norm_num

/-! ## C9 — updateState on an unknown unit registers it first -/

/-- **C9.** `updateState` on a subsystem id that was never registered
creates a fresh record (state UNKNOWN, zero totals, zero transitions)
and then applies the state change: it is equivalent to
`registerSubsystem` followed by `updateState`, and never rejects. -/
theorem updateState_unknown_equiv (t : UptimeTracker) (id : String)
    (state : HealthState) (now : Int) (h : t.records.lookup id = none) :
    t.updateState id state now =
      (t.registerSubsystem id now).updateState id state now ∧
    ∃ r, (t.registerSubsystem id now).records.lookup id = some r ∧
      r.currentState = HealthState.UNKNOWN ∧ r.totalUptimeMs = 0 ∧
      r.totalDowntimeMs = 0 ∧ r.stateTransitions = 0 := by
  constructor
  · have hreg := register_lookup_fresh t id now h
    simp only [UptimeTracker.updateState, h, hreg, Option.isSome_none,
      Option.isSome_some, Bool.false_eq_true, if_false, if_true]
  · exact ⟨_, register_lookup_fresh t id now h, rfl, rfl, rfl, rfl⟩

/-- Witness for C9 at an empty tracker. -/
theorem updateState_unknown_equiv_witness :
    (UptimeTracker.mk []).updateState "tx1" HealthState.OK 5 =
      ((UptimeTracker.mk []).registerSubsystem "tx1" 5).updateState "tx1"
        HealthState.OK 5 :=
  (updateState_unknown_equiv (UptimeTracker.mk []) "tx1" HealthState.OK 5
    rfl).1

/-! ## C10 — sanitize is idempotent and key-preserving -/

theorem sanitizeVal_cases (parse : String → Option ℚ) (p : String × QVal) :
    (∃ s q, p.2 = QVal.str s ∧ parse s = some q ∧
      (HealthDataPipeline.sanitizeData parse [p]) = [(p.1, QVal.num (Dbl.fin q))]) ∨
    ((∀ s q, p.2 = QVal.str s → parse s ≠ some q) ∧
      HealthDataPipeline.sanitizeData parse [p] = [p]) := by
  obtain ⟨k, v⟩ := p
  cases v with
  | str s =>
      cases hq : parse s with
      | none =>
          right
          constructor
          · intro s' q hs hq'
            cases hs
            rw [hq] at hq'
            exact Option.noConfusion hq'
          · simp [HealthDataPipeline.sanitizeData, hq]
      | some q =>
          left
          exact ⟨s, q, rfl, hq, by simp [HealthDataPipeline.sanitizeData, hq]⟩
  | num d => right; exact ⟨fun s q hs => QVal.noConfusion hs, rfl⟩
  | boolv b => right; exact ⟨fun s q hs => QVal.noConfusion hs, rfl⟩
  | nullv => right; exact ⟨fun s q hs => QVal.noConfusion hs, rfl⟩

/-- **C10.** `sanitizeData` is idempotent, preserves the key list
exactly (never adds or removes keys), converts every string value the
parser accepts into the parsed number, and leaves every other entry
unchanged. -/
theorem sanitizeData_spec (parse : String → Option ℚ) (data : VarMap) :
    HealthDataPipeline.sanitizeData parse
        (HealthDataPipeline.sanitizeData parse data) =
      HealthDataPipeline.sanitizeData parse data ∧
    (HealthDataPipeline.sanitizeData parse data).map Prod.fst =
      data.map Prod.fst ∧
    (∀ kv ∈ data, ∀ s q, kv.2 = QVal.str s → parse s = some q →
      (kv.1, QVal.num (Dbl.fin q)) ∈ HealthDataPipeline.sanitizeData parse data) ∧
    (∀ kv ∈ data, (∀ s q, kv.2 = QVal.str s → parse s ≠ some q) →
      kv ∈ HealthDataPipeline.sanitizeData parse data) := by
  refine ⟨?_, ?_, ?_, ?_⟩
  · induction data with
    | nil => rfl
    | cons p t ih =>
        obtain ⟨k, v⟩ := p
        cases v with
        | str s =>
            cases hq : parse s with
            | none => simpa [HealthDataPipeline.sanitizeData, hq] using ih
            | some q => simpa [HealthDataPipeline.sanitizeData, hq] using ih
        | num d => simpa [HealthDataPipeline.sanitizeData] using ih
        | boolv b => simpa [HealthDataPipeline.sanitizeData] using ih
        | nullv => simpa [HealthDataPipeline.sanitizeData] using ih
  · induction data with
    | nil => rfl
    | cons p t ih =>
        obtain ⟨k, v⟩ := p
        cases v with
        | str s =>
            cases hq : parse s with
            | none => simpa [HealthDataPipeline.sanitizeData, hq] using ih
            | some q => simpa [HealthDataPipeline.sanitizeData, hq] using ih
        | num d => simpa [HealthDataPipeline.sanitizeData] using ih
        | boolv b => simpa [HealthDataPipeline.sanitizeData] using ih
        | nullv => simpa [HealthDataPipeline.sanitizeData] using ih
  · intro kv hkv s q hs hq
    obtain ⟨k, v⟩ := kv
    simp only at hs
    subst hs
    induction data with
    | nil => cases hkv
    | cons p t ih =>
        rcases List.mem_cons.mp hkv with rfl | hmem
        · simp [HealthDataPipeline.sanitizeData, hq]
        · have := ih hmem
          simp only [HealthDataPipeline.sanitizeData, List.map_cons] at this ⊢
          exact List.mem_cons_of_mem _ this
  · intro kv hkv hother
    induction data with
    | nil => cases hkv
    | cons p t ih =>
        rcases List.mem_cons.mp hkv with rfl | hmem
        · rcases sanitizeVal_cases parse kv with ⟨s, q, hs, hq, _⟩ | ⟨_, heq⟩
          · exact absurd hq (hother s q hs)
          · have : HealthDataPipeline.sanitizeData parse (kv :: t) =
                kv :: HealthDataPipeline.sanitizeData parse t := by
              have h1 := heq
              simp only [HealthDataPipeline.sanitizeData, List.map_cons,
                List.map_nil] at h1 ⊢
              rw [List.cons.injEq] at h1
              rw [h1.1]
            rw [this]
            exact List.mem_cons_self _ _
        · have := ih hmem
          simp only [HealthDataPipeline.sanitizeData, List.map_cons] at this ⊢
          exact List.mem_cons_of_mem _ this

/-- Witness for C10 on a concrete map with a parseable string, an
unparseable string and a numeric value. -/
theorem sanitizeData_spec_witness :
    ("a", QVal.num (Dbl.fin 42)) ∈
      HealthDataPipeline.sanitizeData parse42
        [("a", QVal.str "42"), ("b", QVal.str "x"), ("c", QVal.num (Dbl.fin 7))] ∧
    ("b", QVal.str "x") ∈
      HealthDataPipeline.sanitizeData parse42
        [("a", QVal.str "42"), ("b", QVal.str "x"), ("c", QVal.num (Dbl.fin 7))] := by
  constructor
  · exact (sanitizeData_spec parse42
      [("a", QVal.str "42"), ("b", QVal.str "x"), ("c", QVal.num (Dbl.fin 7))]).2.2.1
      ("a", QVal.str "42") (by decide) "42" 42 rfl (by decide)
  · exact (sanitizeData_spec parse42
      [("a", QVal.str "42"), ("b", QVal.str "x"), ("c", QVal.num (Dbl.fin 7))]).2.2.2
      ("b", QVal.str "x") (by decide)
      (by intro s q hs; cases hs; simp [parse42])

/-! ## C4 — health scores stay in [0, 100] -/

theorem faultPenalty_nonneg (sev : FaultSeverity) :
    0 ≤ RadarSubsystem.faultPenalty sev := by
  cases sev <;> norm_num [RadarSubsystem.faultPenalty]

theorem foldl_sub_penalty_le (l : List FaultCode) :
    ∀ s : ℚ, l.foldl (fun s f => s - RadarSubsystem.faultPenalty f.severity) s ≤ s := by
  induction l with
  | nil => intro s; exact le_rfl
  | cons f t ih =>
      intro s
      calc (f :: t).foldl (fun s f => s - RadarSubsystem.faultPenalty f.severity) s
          ≤ s - RadarSubsystem.faultPenalty f.severity := ih _
        _ ≤ s := by
            have := faultPenalty_nonneg f.severity
            linarith

/-- **C4.** Every health-score computation in the engine yields a value
in [0, 100]: the pipeline's generic threshold scorer and the power
supply's scorer clamp with `qMax(0, qMin(100, score))`, and the base
subsystem scorer starts at 100, only subtracts non-negative per-fault
penalties, and floors at 0 — so the score never leaves [0, 100] under
any sequence of telemetry updates and fault registrations/clears. -/
theorem healthScore_in_range :
    (∀ (parse : String → Option ℚ) (data : VarMap) (thresholds : ThresholdMap),
      0 ≤ HealthDataPipeline.computeHealthScore parse data thresholds ∧
      HealthDataPipeline.computeHealthScore parse data thresholds ≤ 100) ∧
    (∀ (tel : PowerSupplySubsystem.PsuTelemetry) (faultCount : Nat),
      0 ≤ PowerSupplySubsystem.computeHealthScore tel faultCount ∧
      PowerSupplySubsystem.computeHealthScore tel faultCount ≤ 100) ∧
    (∀ activeFaults : List FaultCode,
      0 ≤ RadarSubsystem.computeHealthScore activeFaults ∧
      RadarSubsystem.computeHealthScore activeFaults ≤ 100) := by
  refine ⟨fun parse data thresholds => ?_, fun tel n => ?_, fun faults => ?_⟩
  · unfold HealthDataPipeline.computeHealthScore
    exact ⟨le_max_left _ _, max_le (by norm_num) (min_le_left _ _)⟩
  · unfold PowerSupplySubsystem.computeHealthScore
    exact ⟨le_max_left _ _, max_le (by norm_num) (min_le_left _ _)⟩
  · unfold RadarSubsystem.computeHealthScore
    refine ⟨le_max_left _ _, max_le (by norm_num) ?_⟩
    exact foldl_sub_penalty_le faults 100

/-! ## C3 — fault registration dedup; what clearing actually does -/

theorem lookup_isSome_filter_pos {α : Type} (l : List (String × α)) (k : String)
    (h : (l.lookup k).isSome = true) :
    1 ≤ (l.filter (fun p => p.1 = k)).length := by
  induction l with
  | nil => simp [List.lookup] at h
  | cons p t ih =>
      obtain ⟨k', v'⟩ := p
      rw [List.lookup] at h
      by_cases hk : k = k'
      · have hk' : k' = k := hk.symm
        simp [List.filter, hk']
      · rw [show (k == k') = false by simpa using hk] at h
        have hk' : ¬ k' = k := fun h' => hk h'.symm
        simpa [List.filter, hk'] using ih h

theorem registerFault_active_noop (m : FaultManager) (f : FaultCode)
    (h : (m.activeFaults.lookup
      (FaultManager.makeFaultKey f.subsystemId f.code)).isSome = true) :
    m.registerFault f = m := by
  simp only [FaultManager.registerFault]
  rw [if_pos h]

/-- **C3 (counterexample).** Clearing an active fault does not move
anything into the history: the single history entry was appended at
registration time, and it is left byte-for-byte unchanged (still flagged
`active`) by `clearFault`; `FaultCode` has no endTime or duration field
to compute. This refutes the claim that clearing "moves its record to
the bounded history with endTime and duration = endTime − startTime
computed". -/
theorem faultManager_clear_counterexample :
    ((FaultManager.init.registerFault exCriticalFault).clearFault
        "PSU-001" "psu1").activeFaults = [] ∧
    ((FaultManager.init.registerFault exCriticalFault).clearFault
        "PSU-001" "psu1").faultHistory =
      (FaultManager.init.registerFault exCriticalFault).faultHistory ∧
    (FaultManager.init.registerFault exCriticalFault).faultHistory =
      [exCriticalFault] ∧
    exCriticalFault.active = true := by
  refine ⟨?_, rfl, ?_, rfl⟩ <;> decide

/-- **C3 (amended).** Registering a fault whose (unitId, code) key is
already active is a no-op leaving exactly one active record for that
key; the record is appended to the bounded history (oldest evicted
beyond capacity) at registration time; clearing a fault removes it from
the active map and leaves the history untouched — no endTime or
duration is computed. -/
theorem faultManager_register_clear_spec :
    (∀ (m : FaultManager) (f : FaultCode),
      FaultManager.countKey m (FaultManager.makeFaultKey f.subsystemId f.code) ≤ 1 →
      FaultManager.countKey (m.registerFault f)
        (FaultManager.makeFaultKey f.subsystemId f.code) = 1) ∧
    (∀ (m : FaultManager) (f f' : FaultCode),
      f'.subsystemId = f.subsystemId → f'.code = f.code →
      (m.registerFault f).registerFault f' = m.registerFault f) ∧
    (∀ (m : FaultManager) (f : FaultCode),
      m.activeFaults.lookup (FaultManager.makeFaultKey f.subsystemId f.code) = none →
      (m.registerFault f).faultHistory =
        FaultManager.trimFront FaultManager.MAX_HISTORY_SIZE (m.faultHistory ++ [f])) ∧
    (∀ (m : FaultManager) (c s : String),
      (m.clearFault c s).faultHistory = m.faultHistory ∧
      FaultManager.countKey (m.clearFault c s) (FaultManager.makeFaultKey s c) = 0) := by
  refine ⟨fun m f hle => ?_, fun m f f' hs hc => ?_, fun m f hnone => ?_,
          fun m c s => ⟨rfl, ?_⟩⟩
  · by_cases h : (m.activeFaults.lookup (FaultManager.makeFaultKey f.subsystemId f.code)).isSome
    · rw [registerFault_active_noop m f h]
      exact le_antisymm hle (lookup_isSome_filter_pos _ _ h)
    · have hnone := Option.not_isSome_iff_eq_none.mp h
      simp only [FaultManager.registerFault, FaultManager.countKey]
      rw [if_neg h]
      simp only
      rw [lookup_none_alSet_append _ _ _ hnone, List.filter_append,
        lookup_none_filter_key _ _ hnone]
      simp
  · have hkey : FaultManager.makeFaultKey f'.subsystemId f'.code =
        FaultManager.makeFaultKey f.subsystemId f.code := by
      rw [hs, hc]
    by_cases h : (m.activeFaults.lookup (FaultManager.makeFaultKey f.subsystemId f.code)).isSome
    · have hm : m.registerFault f = m := registerFault_active_noop m f h
      rw [hm]
      exact registerFault_active_noop m f' (by rw [hkey]; exact h)
    · have hnone := Option.not_isSome_iff_eq_none.mp h
      have hsome : ((m.registerFault f).activeFaults.lookup
          (FaultManager.makeFaultKey f'.subsystemId f'.code)).isSome = true := by
        simp only [FaultManager.registerFault]
        rw [if_neg h]
        simp only [hkey]
        rw [alSet_lookup_self]
        rfl
      exact registerFault_active_noop (m.registerFault f) f' hsome
  · simp only [FaultManager.registerFault]
    rw [if_neg (by simp [hnone])]
  · simp only [FaultManager.clearFault, FaultManager.countKey,
      List.filter_filter]
    rw [List.length_eq_zero, List.filter_eq_nil_iff]
    intro p _
    simp only [Bool.and_eq_true, decide_eq_true_eq, ne_eq]
    rintro ⟨h1, h2⟩
    exact h2 h1

/-- Witness for C3 (amended): duplicate registration of a concrete
fault is a no-op and one active record remains. -/
theorem faultManager_register_clear_spec_witness :
    FaultManager.countKey (FaultManager.init.registerFault exCriticalFault)
      (FaultManager.makeFaultKey exCriticalFault.subsystemId exCriticalFault.code)
      = 1 ∧
    (FaultManager.init.registerFault exCriticalFault).registerFault
        exCriticalFault =
      FaultManager.init.registerFault exCriticalFault :=
  ⟨faultManager_register_clear_spec.1 FaultManager.init exCriticalFault
    (by decide),
   faultManager_register_clear_spec.2.1 FaultManager.init exCriticalFault
    exCriticalFault rfl rfl⟩

/-! ## C1 — resolved health state vs faults and thresholds -/

/-- **C1 (counterexample).** For the power supply unit, an active
CRITICAL fault with all telemetry nominal yields DEGRADED, not FAIL:
`PowerSupplySubsystem::computeHealthState` sends *any* non-empty fault
list (whatever the severities) to DEGRADED and reserves FAIL for
threshold breaches. This refutes "state is Fail if and only if an
active Critical/Fatal fault exists or a critical threshold is currently
breached" as a statement about every unit. -/
theorem psu_state_counterexample :
    ([exCriticalFault].any fun f =>
      f.severity = FaultSeverity.CRITICAL || f.severity = FaultSeverity.FATAL) = true ∧
    PowerSupplySubsystem.computeHealthState true
      PowerSupplySubsystem.nominalTelemetry [exCriticalFault] =
      HealthState.DEGRADED ∧
    HealthState.DEGRADED ≠ HealthState.FAIL := by
  refine ⟨by decide, by decide, by decide⟩

/-- **C1 (amended).** For an enabled unit using the base
`RadarSubsystem::computeHealthState`, the claim holds as stated: FAIL
iff an active Critical/Fatal fault exists, DEGRADED iff a Warning fault
exists and no Critical/Fatal one, OK otherwise. For the power supply
override, FAIL iff a critical threshold condition holds
(input voltage ≤ 180 or ≥ 270, temperature ≥ 65, or on battery with
level ≤ 10); DEGRADED iff no FAIL condition holds and either a warning
threshold condition holds, the unit runs on battery, or any active
fault exists (regardless of severity); otherwise OK. -/
theorem healthState_characterization :
    (∀ activeFaults : List FaultCode,
      (RadarSubsystem.computeHealthState true activeFaults = HealthState.FAIL ↔
        ∃ f ∈ activeFaults, f.severity = FaultSeverity.CRITICAL ∨
          f.severity = FaultSeverity.FATAL) ∧
      (RadarSubsystem.computeHealthState true activeFaults = HealthState.DEGRADED ↔
        (∃ f ∈ activeFaults, f.severity = FaultSeverity.WARNING) ∧
        ¬ ∃ f ∈ activeFaults, f.severity = FaultSeverity.CRITICAL ∨
          f.severity = FaultSeverity.FATAL) ∧
      (RadarSubsystem.computeHealthState true activeFaults = HealthState.OK ↔
        (¬ ∃ f ∈ activeFaults, f.severity = FaultSeverity.WARNING) ∧
        ¬ ∃ f ∈ activeFaults, f.severity = FaultSeverity.CRITICAL ∨
          f.severity = FaultSeverity.FATAL)) ∧
    (∀ (tel : PowerSupplySubsystem.PsuTelemetry) (activeFaults : List FaultCode),
      (PowerSupplySubsystem.computeHealthState true tel activeFaults =
          HealthState.FAIL ↔
        tel.inputVoltage ≤ 180 ∨ 270 ≤ tel.inputVoltage ∨
          65 ≤ tel.temperature ∨ (tel.onBattery ∧ tel.batteryLevel ≤ 10)) ∧
      (PowerSupplySubsystem.computeHealthState true tel activeFaults =
          HealthState.DEGRADED ↔
        ¬ (tel.inputVoltage ≤ 180 ∨ 270 ≤ tel.inputVoltage ∨
            65 ≤ tel.temperature ∨ (tel.onBattery ∧ tel.batteryLevel ≤ 10)) ∧
        (tel.inputVoltage ≤ 200 ∨ 250 ≤ tel.inputVoltage ∨
          50 ≤ tel.temperature ∨ (tel.onBattery ∧ tel.batteryLevel ≤ 30) ∨
          tel.onBattery ∨ activeFaults ≠ []))) := by
  constructor
  · intro faults
    simp only [RadarSubsystem.computeHealthState, Bool.not_true,
      Bool.false_eq_true, if_false]
    by_cases hc : (faults.any fun f =>
        f.severity = FaultSeverity.FATAL || f.severity = FaultSeverity.CRITICAL) = true
    · have hcE : ∃ f ∈ faults, f.severity = FaultSeverity.CRITICAL ∨
          f.severity = FaultSeverity.FATAL := by
        obtain ⟨f, hf, hsev⟩ := List.any_eq_true.mp hc
        refine ⟨f, hf, ?_⟩
        rcases (by simpa using hsev :
            f.severity = FaultSeverity.FATAL ∨ f.severity = FaultSeverity.CRITICAL)
          with h | h
        · exact Or.inr h
        · exact Or.inl h
      rw [if_pos hc]
      exact ⟨⟨fun _ => hcE, fun _ => rfl⟩,
        ⟨fun h => absurd h (by decide), fun ⟨_, hno⟩ => absurd hcE hno⟩,
        ⟨fun h => absurd h (by decide), fun ⟨_, hno⟩ => absurd hcE hno⟩⟩
    · have hcE : ¬ ∃ f ∈ faults, f.severity = FaultSeverity.CRITICAL ∨
          f.severity = FaultSeverity.FATAL := by
        rintro ⟨f, hf, hsev⟩
        apply hc
        refine List.any_eq_true.mpr ⟨f, hf, ?_⟩
        rcases hsev with h | h
        · simp [h]
        · simp [h]
      rw [if_neg hc]
      by_cases hw : (faults.any fun f => f.severity = FaultSeverity.WARNING) = true
      · have hwE : ∃ f ∈ faults, f.severity = FaultSeverity.WARNING := by
          obtain ⟨f, hf, hsev⟩ := List.any_eq_true.mp hw
          exact ⟨f, hf, by simpa using hsev⟩
        rw [if_pos hw]
        exact ⟨⟨fun h => absurd h (by decide), fun hx => absurd hx hcE⟩,
          ⟨fun _ => ⟨hwE, hcE⟩, fun _ => rfl⟩,
          ⟨fun h => absurd h (by decide), fun ⟨hno, _⟩ => absurd hwE hno⟩⟩
      · have hwE : ¬ ∃ f ∈ faults, f.severity = FaultSeverity.WARNING := by
          rintro ⟨f, hf, hsev⟩
          exact hw (List.any_eq_true.mpr ⟨f, hf, by simpa using hsev⟩)
        rw [if_neg hw]
        exact ⟨⟨fun h => absurd h (by decide), fun hx => absurd hx hcE⟩,
          ⟨fun h => absurd h (by decide), fun ⟨hwx, _⟩ => absurd hwx hwE⟩,
          ⟨fun _ => ⟨hwE, hcE⟩, fun _ => rfl⟩⟩
  · intro tel faults
    simp only [PowerSupplySubsystem.computeHealthState,
      PowerSupplySubsystem.INPUT_VOLTAGE_LOW_CRITICAL,
      PowerSupplySubsystem.INPUT_VOLTAGE_HIGH_CRITICAL,
      PowerSupplySubsystem.INPUT_VOLTAGE_LOW_WARNING,
      PowerSupplySubsystem.INPUT_VOLTAGE_HIGH_WARNING,
      PowerSupplySubsystem.BATTERY_CRITICAL, PowerSupplySubsystem.BATTERY_WARNING,
      PowerSupplySubsystem.TEMP_CRITICAL, PowerSupplySubsystem.TEMP_WARNING,
      Bool.not_true, Bool.false_eq_true, if_false]
    by_cases hcrit : tel.inputVoltage ≤ 180 ∨ 270 ≤ tel.inputVoltage ∨
        65 ≤ tel.temperature ∨ (tel.onBattery ∧ tel.batteryLevel ≤ 10)
    · rw [if_pos hcrit]
      exact ⟨⟨fun _ => hcrit, fun _ => rfl⟩,
        ⟨fun h => absurd h (by decide), fun ⟨hno, _⟩ => absurd hcrit hno⟩⟩
    · rw [if_neg hcrit]
      by_cases hwarn : tel.inputVoltage ≤ 200 ∨ 250 ≤ tel.inputVoltage ∨
          50 ≤ tel.temperature ∨ (tel.onBattery ∧ tel.batteryLevel ≤ 30)
      · rw [if_pos hwarn]
        refine ⟨⟨fun h => absurd h (by decide), fun hx => absurd hx hcrit⟩,
          ⟨fun _ => ⟨hcrit, ?_⟩, fun _ => rfl⟩⟩
        rcases hwarn with h | h | h | h
        · exact Or.inl h
        · exact Or.inr (Or.inl h)
        · exact Or.inr (Or.inr (Or.inl h))
        · exact Or.inr (Or.inr (Or.inr (Or.inl h)))
      · rw [if_neg hwarn]
        by_cases hbat : tel.onBattery
        · rw [if_pos hbat]
          exact ⟨⟨fun h => absurd h (by decide), fun hx => absurd hx hcrit⟩,
            ⟨fun _ => ⟨hcrit, Or.inr (Or.inr (Or.inr (Or.inr (Or.inl hbat))))⟩,
             fun _ => rfl⟩⟩
        · rw [if_neg hbat]
          by_cases hf : faults.isEmpty
          · rw [if_neg (by simp [hf])]
            refine ⟨⟨fun h => absurd h (by decide), fun hx => absurd hx hcrit⟩, ?_⟩
            constructor
            · intro h; exact absurd h (by decide)
            · rintro ⟨-, hw | hw | hw | hw | hw | hw⟩
              · exact absurd (Or.inl hw) hwarn
              · exact absurd (Or.inr (Or.inl hw)) hwarn
              · exact absurd (Or.inr (Or.inr (Or.inl hw))) hwarn
              · exact absurd (Or.inr (Or.inr (Or.inr hw))) hwarn
              · exact absurd hw hbat
              · exact absurd (List.isEmpty_iff.mp hf) hw
          · rw [if_pos (by simpa using hf)]
            refine ⟨⟨fun h => absurd h (by decide), fun hx => absurd hx hcrit⟩,
              ⟨fun _ => ⟨hcrit, Or.inr (Or.inr (Or.inr (Or.inr (Or.inr ?_))))⟩,
               fun _ => rfl⟩⟩
            intro hnil
            exact hf (by simp [hnil])

/-- Witness for C1 at concrete inputs: one CRITICAL fault fails the
base state machine, and a warning-level input voltage degrades the
power supply. -/
theorem healthState_characterization_witness :
    RadarSubsystem.computeHealthState true [exCriticalFault] = HealthState.FAIL ∧
    PowerSupplySubsystem.computeHealthState true
      { inputVoltage := 190, batteryLevel := 100, temperature := 35,
        onBattery := false } [] = HealthState.DEGRADED := by
  constructor
  · exact (healthState_characterization.1 [exCriticalFault]).1.mpr
      ⟨exCriticalFault, by decide, by decide⟩
  · exact ((healthState_characterization.2
      { inputVoltage := 190, batteryLevel := 100, temperature := 35,
        onBattery := false } []).2).mpr
      ⟨by norm_num, by norm_num⟩

/-! ## C2 — what validation actually rejects -/

/-- **C2 (counterexample).** A telemetry item whose numeric value is an
actual non-finite double (NaN) is NOT rejected: `validateRanges` detects
it, but its result only adds a warning — `validateData` still returns
valid, and `processQueue` fully processes the item (processed counter
incremented, state and score emitted, error counter untouched). This
refutes "validation rejects the item whenever any numeric value is
non-finite". -/
theorem pipeline_nonfinite_counterexample :
    ((QVal.num Dbl.nan).toDouble parseNone).nonFinite = true ∧
    (HealthDataPipeline.validateData parseNone [] "psu1"
      [("temperature", QVal.num Dbl.nan)]).valid = true ∧
    HealthDataPipeline.processItem parseNone [] [] defaultPipelineThresholds
      0 0 0 ("psu1", [("temperature", QVal.num Dbl.nan)]) =
      ((1, 0),
        [HealthDataPipeline.PipeEvent.dataProcessed "psu1" HealthState.OK 100,
         HealthDataPipeline.PipeEvent.healthStateComputed "psu1"
           HealthState.OK 100]) := by
  refine ⟨rfl, by decide, ?_⟩
  have hdelta : HealthDataPipeline.paramScoreDelta
      { warningHigh := some 60, criticalHigh := some 80 } Dbl.nan = 0 := by
    simp [HealthDataPipeline.paramScoreDelta, Dbl.gtQ]
  have hscore : HealthDataPipeline.computeHealthScore parseNone
      [("temperature", QVal.num Dbl.nan)] defaultPipelineThresholds = 100 := by
    unfold HealthDataPipeline.computeHealthScore
    simp only [List.foldl, defaultPipelineThresholds, List.lookup,
      QVal.canConvertDouble, Bool.not_true, Bool.false_eq_true, if_false]
    rw [show (("temperature" : String) == "temperature") = true from rfl]
    simp only [QVal.toDouble, hdelta]
    norm_num
  have hstate : HealthDataPipeline.computeHealthState parseNone
      [("temperature", QVal.num Dbl.nan)] defaultPipelineThresholds =
      HealthState.OK := by decide
  have hfaults : HealthDataPipeline.detectFaults parseNone "psu1"
      [("temperature", QVal.num Dbl.nan)] defaultPipelineThresholds 0 = [] := by
    decide
  have hvalid : (HealthDataPipeline.validateData parseNone [] "psu1"
      [("temperature", QVal.num Dbl.nan)]).valid = true := by decide
  have hsan : (HealthDataPipeline.validateData parseNone [] "psu1"
      [("temperature", QVal.num Dbl.nan)]).sanitizedData =
      [("temperature", QVal.num Dbl.nan)] := by decide
  simp [HealthDataPipeline.processItem, HealthDataPipeline.processData,
    hvalid, hsan, hscore, hstate, hfaults]

theorem validateRequired_false_iff (data : VarMap) (req : List String) :
    HealthDataPipeline.validateRequired data req = false ↔
      ∃ field ∈ req, ∀ kv ∈ data, kv.1 ≠ field := by
  rw [Bool.eq_false_iff, Ne]
  unfold HealthDataPipeline.validateRequired
  simp only [List.all_eq_true, List.any_eq_true, decide_eq_true_eq]
  push_neg
  rfl

theorem validateDataTypes_false_iff (data : VarMap) :
    HealthDataPipeline.validateDataTypes data = false ↔
      ∃ kv ∈ data, ∃ s, kv.2 = QVal.str s ∧
        (s = "NaN" ∨ s = "Infinity" ∨ s = "-Infinity") := by
  rw [Bool.eq_false_iff, Ne]
  unfold HealthDataPipeline.validateDataTypes
  simp only [List.all_eq_true]
  push_neg
  constructor
  · rintro ⟨kv, hkv, hbad⟩
    refine ⟨kv, hkv, ?_⟩
    cases hv : kv.2 with
    | str s =>
        refine ⟨s, rfl, ?_⟩
        rw [hv] at hbad
        by_contra hcon
        push_neg at hcon
        apply hbad
        simp [HealthDataPipeline.typeOk, hcon.1, hcon.2.1, hcon.2.2]
    | num d => rw [hv] at hbad; simp [HealthDataPipeline.typeOk] at hbad
    | boolv b => rw [hv] at hbad; simp [HealthDataPipeline.typeOk] at hbad
    | nullv => rw [hv] at hbad; simp [HealthDataPipeline.typeOk] at hbad
  · rintro ⟨kv, hkv, s, hs, hsent⟩
    refine ⟨kv, hkv, ?_⟩
    rw [hs]
    simp only [HealthDataPipeline.typeOk]
    rcases hsent with h | h | h <;> simp [h]

/-- **C2 (amended).** Validation rejects a submitted item if and only
if a schema-required field is missing or some value is one of the
sentinel strings "NaN"/"Infinity"/"-Infinity". A rejected item is
discarded: the error counter is incremented and only a validation-error
event is emitted. An accepted item — including one carrying an actual
non-finite numeric value, which only produces a range warning —
increments the processed counter and emits its computed state and
score. -/
theorem validation_reject_characterization
    (parse : String → Option ℚ) (schemas : List (String × List String))
    (subsystemId : String) (data : VarMap) :
    ((HealthDataPipeline.validateData parse schemas subsystemId data).valid
        = false ↔
      (∃ field ∈ (schemas.lookup subsystemId).getD [],
        ∀ kv ∈ data, kv.1 ≠ field) ∨
      (∃ kv ∈ data, ∃ s, kv.2 = QVal.str s ∧
        (s = "NaN" ∨ s = "Infinity" ∨ s = "-Infinity"))) ∧
    (∀ (thresholds : List (String × ThresholdMap)) (defaults : ThresholdMap)
        (now : Int) (pc ec : Nat),
      ((HealthDataPipeline.validateData parse schemas subsystemId data).valid
          = false →
        HealthDataPipeline.processItem parse schemas thresholds defaults now
          pc ec (subsystemId, data) =
        ((pc, ec + 1),
          [HealthDataPipeline.PipeEvent.validationError subsystemId
            (HealthDataPipeline.validateData parse schemas subsystemId
              data).errorMessage])) ∧
      ((HealthDataPipeline.validateData parse schemas subsystemId data).valid
          = true →
        ∃ st sc evs,
          HealthDataPipeline.processItem parse schemas thresholds defaults now
            pc ec (subsystemId, data) =
          ((pc + 1, ec),
            HealthDataPipeline.PipeEvent.dataProcessed subsystemId st sc ::
            HealthDataPipeline.PipeEvent.healthStateComputed subsystemId st sc ::
            evs))) := by
  constructor
  · unfold HealthDataPipeline.validateData
    by_cases hreq : HealthDataPipeline.validateRequired data
        ((schemas.lookup subsystemId).getD []) = false
    · rw [if_pos (by simp [hreq])]
      simpa using Or.inl ((validateRequired_false_iff data _).mp hreq)
    · have hreqT : HealthDataPipeline.validateRequired data
          ((schemas.lookup subsystemId).getD []) = true :=
        eq_true_of_ne_false hreq
      rw [if_neg (by simp [hreqT])]
      by_cases htyp : HealthDataPipeline.validateDataTypes data = false
      · rw [if_pos (by simp [htyp])]
        simpa using Or.inr ((validateDataTypes_false_iff data).mp htyp)
      · have htypT : HealthDataPipeline.validateDataTypes data = true :=
          eq_true_of_ne_false htyp
        rw [if_neg (by simp [htypT])]
        simp only [Bool.true_eq_false, false_iff]
        rintro (hmiss | hsent)
        · exact hreq ((validateRequired_false_iff data _).mpr hmiss)
        · exact htyp ((validateDataTypes_false_iff data).mpr hsent)
  · intro thresholds defaults now pc ec
    constructor
    · intro hv
      simp [HealthDataPipeline.processItem, hv]
    · intro hv
      refine ⟨(HealthDataPipeline.processData parse subsystemId
          ((thresholds.lookup subsystemId).getD defaults)
          (HealthDataPipeline.validateData parse schemas subsystemId
            data).sanitizedData now).computedState,
        (HealthDataPipeline.processData parse subsystemId
          ((thresholds.lookup subsystemId).getD defaults)
          (HealthDataPipeline.validateData parse schemas subsystemId
            data).sanitizedData now).healthScore,
        (HealthDataPipeline.processData parse subsystemId
          ((thresholds.lookup subsystemId).getD defaults)
          (HealthDataPipeline.validateData parse schemas subsystemId
            data).sanitizedData now).detectedFaults.map
          (fun f => HealthDataPipeline.PipeEvent.faultDetected subsystemId f.code),
        ?_⟩
      simp [HealthDataPipeline.processItem, hv]

/-- Witness for C2 (amended): a concrete item missing a required field
is rejected; duplicating the range check, an in-range item passes. -/
theorem validation_reject_characterization_witness :
    (HealthDataPipeline.validateData parseNone [("psu1", ["inputVoltage"])]
      "psu1" [("temperature", QVal.num (Dbl.fin 25))]).valid = false :=
  (validation_reject_characterization parseNone [("psu1", ["inputVoltage"])]
    "psu1" [("temperature", QVal.num (Dbl.fin 25))]).1.mpr
    (Or.inl ⟨"inputVoltage", by decide, by decide⟩)

/-! ## C8 — MTBF estimation -/

theorem slStep_some (a b ts : Int) :
    FaultManager.slStep (some a, some b) ts = (some (min a ts), some (max b ts)) := by
  simp only [FaultManager.slStep]
  refine Prod.ext ?_ ?_
  · by_cases h : ts < a
    · simp [h, min_eq_right h.le]
    · simp [h, min_eq_left (not_lt.mp h)]
  · by_cases h : b < ts
    · simp [h, max_eq_right h.le]
    · simp [h, max_eq_left (not_lt.mp h)]

theorem foldl_slStep_pair (l : List Int) : ∀ a b : Int,
    l.foldl FaultManager.slStep (some a, some b) =
      (some (l.foldl min a), some (l.foldl max b)) := by
  induction l with
  | nil => intro a b; rfl
  | cons x t ih =>
      intro a b
      rw [List.foldl_cons, slStep_some, ih, List.foldl_cons, List.foldl_cons]

theorem scanFirstLast_cons (x : Int) (t : List Int) :
    FaultManager.scanFirstLast (x :: t) =
      (some (t.foldl min x), some (t.foldl max x)) := by
  unfold FaultManager.scanFirstLast
  rw [List.foldl_cons]
  exact foldl_slStep_pair t x x

theorem foldl_min_le_init (l : List Int) : ∀ a : Int, l.foldl min a ≤ a := by
  induction l with
  | nil => intro a; exact le_rfl
  | cons x t ih =>
      intro a
      calc (x :: t).foldl min a = t.foldl min (min a x) := by rw [List.foldl_cons]
        _ ≤ min a x := ih _
        _ ≤ a := min_le_left _ _

theorem foldl_min_le_mem (l : List Int) :
    ∀ (a x : Int), x ∈ l → l.foldl min a ≤ x := by
  induction l with
  | nil => intro a x hx; cases hx
  | cons y t ih =>
      intro a x hx
      rw [List.foldl_cons]
      rcases List.mem_cons.mp hx with rfl | hx
      · exact le_trans (foldl_min_le_init t _) (min_le_right _ _)
      · exact ih _ _ hx

theorem foldl_min_mem (l : List Int) :
    ∀ a : Int, l.foldl min a = a ∨ l.foldl min a ∈ l := by
  induction l with
  | nil => intro a; exact Or.inl rfl
  | cons x t ih =>
      intro a
      rw [List.foldl_cons]
      rcases ih (min a x) with h | h
      · rcases min_choice a x with hm | hm
        · left; rw [h, hm]
        · right; rw [h, hm]; exact List.mem_cons_self _ _
      · exact Or.inr (List.mem_cons_of_mem _ h)

theorem foldl_max_init_le (l : List Int) : ∀ a : Int, a ≤ l.foldl max a := by
  induction l with
  | nil => intro a; exact le_rfl
  | cons x t ih =>
      intro a
      calc a ≤ max a x := le_max_left _ _
        _ ≤ t.foldl max (max a x) := ih _
        _ = (x :: t).foldl max a := by rw [List.foldl_cons]

theorem foldl_max_mem_le (l : List Int) :
    ∀ (a x : Int), x ∈ l → x ≤ l.foldl max a := by
  induction l with
  | nil => intro a x hx; cases hx
  | cons y t ih =>
      intro a x hx
      rw [List.foldl_cons]
      rcases List.mem_cons.mp hx with rfl | hx
      · exact le_trans (le_max_right _ _) (foldl_max_init_le t _)
      · exact ih _ _ hx

theorem foldl_max_mem (l : List Int) :
    ∀ a : Int, l.foldl max a = a ∨ l.foldl max a ∈ l := by
  induction l with
  | nil => intro a; exact Or.inl rfl
  | cons x t ih =>
      intro a
      rw [List.foldl_cons]
      rcases ih (max a x) with h | h
      · rcases max_choice a x with hm | hm
        · left; rw [h, hm]
        · right; rw [h, hm]; exact List.mem_cons_self _ _
      · exact Or.inr (List.mem_cons_of_mem _ h)

theorem two_le_length_of_mem_ne {α : Type} (l : List α) (a b : α)
    (ha : a ∈ l) (hb : b ∈ l) (hne : a ≠ b) : 2 ≤ l.length := by
  cases l with
  | nil => cases ha
  | cons x t =>
      cases t with
      | nil =>
          rcases List.mem_cons.mp ha with rfl | h
          · rcases List.mem_cons.mp hb with rfl | h'
            · exact absurd rfl hne
            · cases h'
          · cases h
      | cons y u => simp only [List.length_cons]; omega

/-- **C8.** `estimateMTBF` returns the sentinel `-1` whenever the unit
has fewer than two registered faults; whenever it returns a defined
value, the unit has at least two registered faults and at least two
history entries, and the value is the span between the unit's earliest
and latest history timestamps (in hours) divided by (fault count − 1). -/
theorem estimateMTBF_spec (m : FaultManager) (subsystemId : String) :
    ((m.subsystemFaultCounts.lookup subsystemId).getD 0 < 2 →
      m.estimateMTBF subsystemId = -1) ∧
    (m.estimateMTBF subsystemId ≠ -1 →
      2 ≤ (m.subsystemFaultCounts.lookup subsystemId).getD 0 ∧
      2 ≤ (m.faultHistory.filter (fun f => f.subsystemId = subsystemId)).length ∧
      ∃ tFirst tLast,
        tFirst ∈ ((m.faultHistory.filter
          (fun f => f.subsystemId = subsystemId)).map (fun f => f.timestamp)) ∧
        tLast ∈ ((m.faultHistory.filter
          (fun f => f.subsystemId = subsystemId)).map (fun f => f.timestamp)) ∧
        (∀ x ∈ ((m.faultHistory.filter
          (fun f => f.subsystemId = subsystemId)).map (fun f => f.timestamp)),
          tFirst ≤ x ∧ x ≤ tLast) ∧
        tFirst < tLast ∧
        m.estimateMTBF subsystemId =
          (((tLast - tFirst : Int) : ℚ) / 3600000) /
            (((m.subsystemFaultCounts.lookup subsystemId).getD 0 : ℚ) - 1)) := by
  constructor
  · intro hlt
    unfold FaultManager.estimateMTBF
    rw [if_pos hlt]
  · intro hne
    unfold FaultManager.estimateMTBF at hne ⊢
    by_cases hlt : (m.subsystemFaultCounts.lookup subsystemId).getD 0 < 2
    · rw [if_pos hlt] at hne
      exact absurd rfl hne
    · rw [if_neg hlt] at hne ⊢
      refine ⟨not_lt.mp hlt, ?_⟩
      rcases hl : (m.faultHistory.filter
          (fun f => f.subsystemId = subsystemId)).map (fun f => f.timestamp)
        with _ | ⟨x, t⟩
      · rw [hl] at hne
        exact absurd rfl hne
      · rw [hl] at hne ⊢
        simp only [scanFirstLast_cons] at hne ⊢
        by_cases hspan : msecsTo (t.foldl min x) (t.foldl max x) ≤ 0
        · rw [if_pos hspan] at hne
          exact absurd rfl hne
        · rw [if_neg hspan] at hne ⊢
          have hFL : t.foldl min x < t.foldl max x := by
            unfold msecsTo at hspan
            omega
          have hFmem : t.foldl min x ∈ x :: t := by
            rcases foldl_min_mem t x with h | h
            · rw [h]; exact List.mem_cons_self _ _
            · exact List.mem_cons_of_mem _ h
          have hLmem : t.foldl max x ∈ x :: t := by
            rcases foldl_max_mem t x with h | h
            · rw [h]; exact List.mem_cons_self _ _
            · exact List.mem_cons_of_mem _ h
          have hlen : 2 ≤ (m.faultHistory.filter
              (fun f => f.subsystemId = subsystemId)).length := by
            have h2 : 2 ≤ (x :: t).length :=
              two_le_length_of_mem_ne _ _ _ hFmem hLmem (ne_of_lt hFL)
            have hmaplen := congrArg List.length hl
            rw [List.length_map] at hmaplen
            omega
          refine ⟨hlen, t.foldl min x, t.foldl max x, hFmem, hLmem, ?_, hFL, rfl⟩
          intro y hy
          rcases List.mem_cons.mp hy with rfl | hy
          · exact ⟨foldl_min_le_init t _,
              foldl_max_init_le t _⟩
          · exact ⟨foldl_min_le_mem t _ _ hy, foldl_max_mem_le t _ _ hy⟩

/-- Witness for C8: an empty registry reports insufficient data; a
registry with two faults of one unit two hours apart has at least two
registered faults. -/
theorem estimateMTBF_spec_witness :
    FaultManager.init.estimateMTBF "psu1" = -1 ∧
    2 ≤ (exManager.subsystemFaultCounts.lookup "psu1").getD 0 := by
  have hcount : (exManager.subsystemFaultCounts.lookup "psu1").getD 0 = 2 := by
    decide
  have hfilter : (exManager.faultHistory.filter
      (fun f => f.subsystemId = "psu1")).map (fun f => f.timestamp) =
      [1000, 7201000] := by decide
  have hscan : FaultManager.scanFirstLast [1000, 7201000] =
      (some 1000, some 7201000) := by decide
  have hval : exManager.estimateMTBF "psu1" = 2 := by
    unfold FaultManager.estimateMTBF
    rw [hcount, hfilter]
    simp only [hscan]
    norm_num [msecsTo]
  refine ⟨(estimateMTBF_spec FaultManager.init "psu1").1 (by decide),
    ((estimateMTBF_spec exManager "psu1").2 ?_).1⟩
  rw [hval]
  norm_num

/-! ## C7 — z-score anomaly detection -/

/-- **C7.** `isAnomaly` is false whenever fewer than 10 points are
retained; with ≥ 10 points (and a non-negative threshold, as configured)
it holds exactly when the standard deviation clears the `1e-10` guard
and `|value − mean| > threshold · stddev`, i.e. when the |z-score| over
the full retained series exceeds the threshold, a z-score of 0 standing
in when the standard deviation is near zero. -/
theorem isAnomaly_characterization (data : List ℚ) (value threshold : ℚ)
    (ht : 0 ≤ threshold) :
    (data.length < 10 → ¬ TrendAnalyzer.isAnomaly data value threshold) ∧
    (TrendAnalyzer.isAnomaly data value threshold ↔
      10 ≤ data.length ∧
      (1 / 10 ^ 10 : ℝ) ≤
        TrendAnalyzer.computeStdDev data (TrendAnalyzer.computeMean data) ∧
      |(value : ℝ) - (TrendAnalyzer.computeMean data : ℝ)| >
        (threshold : ℝ) *
          TrendAnalyzer.computeStdDev data (TrendAnalyzer.computeMean data)) := by
  by_cases hlen : data.length < 10
  · constructor
    · intro _ h
      rw [TrendAnalyzer.isAnomaly, if_pos hlen] at h
      exact h
    · rw [TrendAnalyzer.isAnomaly, if_pos hlen]
      exact ⟨fun h => h.elim, fun ⟨h10, _⟩ => absurd h10 (by omega)⟩
  · have hlen' : 10 ≤ data.length := not_lt.mp hlen
    refine ⟨fun h => absurd h hlen, ?_⟩
    rw [TrendAnalyzer.isAnomaly, if_neg hlen]
    by_cases hs : TrendAnalyzer.computeStdDev data (TrendAnalyzer.computeMean data)
        < 1 / 10 ^ 10
    · rw [TrendAnalyzer.computeZScore, if_pos hs]
      constructor
      · intro h
        rw [abs_zero] at h
        exact absurd h (not_lt.mpr (by exact_mod_cast ht))
      · rintro ⟨-, hge, -⟩
        exact absurd hge (not_le.mpr hs)
    · have hge : (1 / 10 ^ 10 : ℝ) ≤
          TrendAnalyzer.computeStdDev data (TrendAnalyzer.computeMean data) :=
        not_lt.mp hs
      have hpos : 0 < TrendAnalyzer.computeStdDev data
          (TrendAnalyzer.computeMean data) :=
        lt_of_lt_of_le (by norm_num) hge
      rw [TrendAnalyzer.computeZScore, if_neg hs, abs_div,
        abs_of_pos hpos]
      constructor
      · intro h
        exact ⟨hlen', hge, (lt_div_iff₀ hpos).mp h⟩
      · rintro ⟨-, -, h⟩
        exact (lt_div_iff₀ hpos).mpr h

/-- Witness for C7: the ten-point series with mean 0 and sample
standard deviation √10 flags the value 10 as anomalous at the default
threshold 3 (|z| = 10/√10 ≈ 3.16 > 3). -/
theorem isAnomaly_characterization_witness :
    TrendAnalyzer.isAnomaly exSeries 10 3 := by
  have hm : TrendAnalyzer.computeMean exSeries = 0 := by
    norm_num [TrendAnalyzer.computeMean, exSeries]
  have hstd : TrendAnalyzer.computeStdDev exSeries
      (TrendAnalyzer.computeMean exSeries) = Real.sqrt 10 := by
    rw [hm, TrendAnalyzer.computeStdDev, if_neg (by decide)]
    have hsq : TrendAnalyzer.sumSq exSeries 0 = 90 := by
      norm_num [TrendAnalyzer.sumSq, exSeries]
    have h9 : ((TrendAnalyzer.sumSq exSeries 0 : ℚ) : ℝ) /
        ((exSeries.length : ℝ) - 1) = 10 := by
      rw [hsq]
      norm_num [exSeries]
    rw [h9]
  have hone : (1 : ℝ) ≤ Real.sqrt 10 := by
    rw [show (1 : ℝ) = Real.sqrt 1 from Real.sqrt_one.symm]
    exact Real.sqrt_le_sqrt (by norm_num)
  refine (isAnomaly_characterization exSeries 10 3 (by norm_num)).2.mpr
    ⟨by decide, ?_, ?_⟩
  · rw [hstd]
    linarith [hone]
  · rw [hstd, hm]
    have hlt : Real.sqrt 10 < 10 / 3 := by
      rw [Real.sqrt_lt' (by norm_num : (0:ℝ) < 10 / 3)]
      norm_num
    rw [show ((10 : ℚ) : ℝ) - ((0 : ℚ) : ℝ) = 10 by norm_num]
    rw [show |(10 : ℝ)| = 10 from abs_of_pos (by norm_num)]
    rw [show ((3 : ℚ) : ℝ) = 3 by norm_num]
    nlinarith [hlt]

end RMP
